import Mathlib

/-!
Shallow embedding of the yocto_sym rigid-body simulator (src/yocto/yocto_sym.h).
Floating-point scalars are idealized as rationals; the square-root and
trigonometric helpers from yocto_math.h (which is not part of the sources)
are kept as explicit parameters of the embedding.
-/

namespace ysym

/-- 3-vector of scalars (models ym::vec3f with rational scalars). -/
structure vec3f where
  x : ℚ
  y : ℚ
  z : ℚ
deriving DecidableEq

instance : Zero vec3f := ⟨⟨0, 0, 0⟩⟩

instance : Add vec3f := ⟨fun a b => ⟨a.x + b.x, a.y + b.y, a.z + b.z⟩⟩

instance : Sub vec3f := ⟨fun a b => ⟨a.x - b.x, a.y - b.y, a.z - b.z⟩⟩

instance : Neg vec3f := ⟨fun a => ⟨-a.x, -a.y, -a.z⟩⟩

/-- Componentwise product (ym::operator* on vec3f). -/
instance : Mul vec3f := ⟨fun a b => ⟨a.x * b.x, a.y * b.y, a.z * b.z⟩⟩

instance : SMul ℚ vec3f := ⟨fun q a => ⟨q * a.x, q * a.y, q * a.z⟩⟩

/-- Componentwise division of a vector by a scalar. -/
instance : HDiv vec3f ℚ vec3f := ⟨fun a q => ⟨a.x / q, a.y / q, a.z / q⟩⟩

/-- Modelled from the spec: ym::dot on 3-vectors (yocto_math.h is not in the sources). -/
def dot (a b : vec3f) : ℚ := a.x * b.x + a.y * b.y + a.z * b.z

/-- Modelled from the spec: ym::cross on 3-vectors (yocto_math.h is not in the sources). -/
def cross (a b : vec3f) : vec3f :=
  ⟨a.y * b.z - a.z * b.y, a.z * b.x - a.x * b.z, a.x * b.y - a.y * b.x⟩

/-- Component of a 3-vector selected by an index, as in the `v[j]` loops of the source. -/
def vec3f.comp (v : vec3f) : Fin 3 → ℚ
  | 0 => v.x
  | 1 => v.y
  | 2 => v.z

/-- Modelled from the spec: ym::clamp (yocto_math.h is not in the sources). -/
def clamp (x lo hi : ℚ) : ℚ := min (max x lo) hi

/-- 3×3 matrix, stored as three columns (ym::mat3f is column-major). -/
structure mat3f where
  cx : vec3f
  cy : vec3f
  cz : vec3f
deriving DecidableEq

instance : Zero mat3f := ⟨⟨0, 0, 0⟩⟩

instance : Add mat3f := ⟨fun a b => ⟨a.cx + b.cx, a.cy + b.cy, a.cz + b.cz⟩⟩

instance : HDiv mat3f ℚ mat3f := ⟨fun m q => ⟨m.cx / q, m.cy / q, m.cz / q⟩⟩

/-- Matrix-vector product of a column-major 3×3 matrix. -/
def mat3f.mulVec (m : mat3f) (v : vec3f) : vec3f := v.x • m.cx + v.y • m.cy + v.z • m.cz

/-- Matrix-matrix product. -/
def mat3f.mul (a b : mat3f) : mat3f := ⟨a.mulVec b.cx, a.mulVec b.cy, a.mulVec b.cz⟩

/-- Matrix transpose. -/
def mat3f.transpose (m : mat3f) : mat3f :=
  ⟨⟨m.cx.x, m.cy.x, m.cz.x⟩, ⟨m.cx.y, m.cy.y, m.cz.y⟩, ⟨m.cx.z, m.cy.z, m.cz.z⟩⟩

/-- The identity 3×3 matrix (ym::identity_mat3f). -/
def identity_mat3f : mat3f := ⟨⟨1, 0, 0⟩, ⟨0, 1, 0⟩, ⟨0, 0, 1⟩⟩

/-- Determinant of a 3×3 matrix given by columns. -/
def mat3f.det (m : mat3f) : ℚ := dot m.cx (cross m.cy m.cz)

/-- Modelled from the spec: ym::inverse of a 3×3 matrix via the adjugate
(yocto_math.h is not in the sources); the spec only requires that the inverse
of an invertible inertia tensor exists. -/
def mat3f.inv (m : mat3f) : mat3f :=
  let t := m.transpose
  (mat3f.mk (cross t.cy t.cz) (cross t.cz t.cx) (cross t.cx t.cy)).transpose / m.det

/-- Rigid frame: three rotation columns plus a translation (ym::frame3f;
`frame[0..2]` are the rotation columns and `frame[3] = ym::pos` the origin). -/
structure frame3f where
  x : vec3f := ⟨1, 0, 0⟩
  y : vec3f := ⟨0, 1, 0⟩
  z : vec3f := ⟨0, 0, 1⟩
  pos : vec3f := 0
deriving DecidableEq

/-- The identity frame (ym::identity_frame3f). -/
def identity_frame3f : frame3f := {}

/-- Rotation part of a frame (ym::rot). -/
def rot (f : frame3f) : mat3f := ⟨f.x, f.y, f.z⟩

/-- Build a frame from a rotation matrix and an origin. -/
def frame_of (m : mat3f) (p : vec3f) : frame3f := ⟨m.cx, m.cy, m.cz, p⟩

/-- Modelled from the spec: ym::transform_point, `R·p + t` (yocto_math.h is
not in the sources; the spec's glossary defines a frame as an orthonormal
rotation plus translation acting on points). -/
def transform_point (f : frame3f) (p : vec3f) : vec3f := (rot f).mulVec p + f.pos

/-- Modelled from the spec: ym::transform_direction, `R·p` (yocto_math.h is
not in the sources). -/
def transform_direction (f : frame3f) (p : vec3f) : vec3f := (rot f).mulVec p

/-- Modelled from the spec: ym::tetrahedron_volume, the signed volume
`det/6` of a tetrahedron (yocto_math.h is not in the sources; the spec gives
the apex-at-origin case as `det(v0, v1, v2)/6`). -/
def tetrahedron_volume (a b c d : vec3f) : ℚ := dot (cross (b - a) (c - a)) (d - a) / 6

/-- Modelled from the spec: ym::blerp, barycentric interpolation of a
triangle's vertices (yocto_math.h is not in the sources). -/
def blerp (v0 v1 v2 : vec3f) (euv : ℚ × ℚ × ℚ × ℚ) : vec3f :=
  euv.1 • v0 + euv.2.1 • v1 + euv.2.2.1 • v2

/-- Modelled from the spec: the helpers of yocto_math.h that need square roots
or trigonometry (ym::normalize, ym::length, ym::rotation_mat3,
ym::make_frame3_fromz); they are kept as parameters of the embedding since
their values are irrational in general. -/
structure ymath where
  normalize : vec3f → vec3f
  length : vec3f → ℚ
  rotation_mat3 : vec3f → ℚ → mat3f
  make_frame3_fromz : vec3f → vec3f → frame3f

/-- Modelled from the spec: ym::triangle_normal, the normalized cross product
of two triangle edges (yocto_math.h is not in the sources). -/
def triangle_normal (ym : ymath) (v0 v1 v2 : vec3f) : vec3f :=
  ym.normalize (cross (v1 - v0) (v2 - v0))

/-- Rigid shape (struct `shape` of yocto_sym.h). The geometry pointers are
modelled as an optional list of triangles (`none` models a null `triangles`
pointer) and a list of vertex positions; the cached fields keep the source's
leading-underscore names without the underscore. -/
structure shape where
  frame : frame3f := identity_frame3f
  lin_vel : vec3f := 0
  ang_vel : vec3f := 0
  density : ℚ := 1
  simulated : Bool := true
  triangles : Option (List (ℕ × ℕ × ℕ)) := none
  pos : List vec3f := []
  mass : ℚ := 1
  inertia_local : mat3f := identity_mat3f
  centroid_local : vec3f := 0
  centroid_world : vec3f := 0
  mass_inv : ℚ := 1
  inertia_inv_world : mat3f := identity_mat3f
  inertia_inv_local : mat3f := identity_mat3f
deriving DecidableEq

/-- The default-constructed shape (all member initializers of struct `shape`). -/
def shape0 : shape := {}

/-- Collision point and response (struct `collision` of yocto_sym.h). -/
structure collision where
  shapes : ℕ × ℕ := (0, 0)
  frame : frame3f := identity_frame3f
  impulse : vec3f := 0
  local_impulse : vec3f := 0
  vel_before : vec3f := 0
  vel_after : vec3f := 0
  meff_inv : vec3f := 0
  depth : ℚ := 0
deriving DecidableEq

/-- Rigid body scene (struct `scene` of yocto_sym.h). The four callback
pointers are not stored here; they are passed to the operations explicitly
(see `callbacks`). -/
structure scene where
  shapes : List shape := []
  gravity : vec3f := ⟨0, -(491 / 50), 0⟩
  lin_drag : ℚ := 1 / 100
  ang_drag : ℚ := 1 / 100
  iterations : ℕ := 20
  overlap_max_radius : ℚ := 1 / 4
  collisions_viz : List collision := []
deriving DecidableEq

/-- Point-scene overlap record (struct `overlap_point`); `eid` indexes the
first shape's triangles and `euv` holds the barycentric coordinates. -/
structure overlap_point where
  dist : ℚ := 0
  sid : ℤ := -1
  eid : ℕ := 0
  euv : ℚ × ℚ × ℚ × ℚ := (0, 0, 0, 0)
deriving DecidableEq

/-- The two overlap callbacks used by the active collision path, modelled as
pure functions of the scene (the caller's spatial index is a function of the
body states, and callbacks may not mutate the scene during a step). -/
structure callbacks where
  overlap_shapes : scene → List (ℕ × ℕ)
  overlap_verts : scene → ℕ → ℕ → ℚ → List (overlap_point × (ℕ × ℕ))

/-- `make_scene`: preallocates `nbodies` default shapes. -/
def make_scene (nbodies : ℕ) : scene := { shapes := List.replicate nbodies shape0 }

/-- `set_body`: binds frame, velocities, density (simulated iff density > 0)
and geometry of one body. -/
def set_body (scn : scene) (bid : ℕ) (frame : frame3f) (lin_vel ang_vel : vec3f)
    (density : ℚ) (triangles : Option (List (ℕ × ℕ × ℕ))) (pos : List vec3f) : scene :=
  { scn with
    shapes := scn.shapes.set bid
      { scn.shapes.getD bid shape0 with
        frame := frame, lin_vel := lin_vel, ang_vel := ang_vel, density := density,
        simulated := decide (density > 0), triangles := triangles, pos := pos } }

/-- `get_body_frame`. -/
def get_body_frame (scn : scene) (bid : ℕ) : frame3f := (scn.shapes.getD bid shape0).frame

/-- `get_body_velocity`. -/
def get_body_velocity (scn : scene) (bid : ℕ) : vec3f × vec3f :=
  ((scn.shapes.getD bid shape0).lin_vel, (scn.shapes.getD bid shape0).ang_vel)

/-- `set_body_frame`. -/
def set_body_frame (scn : scene) (bid : ℕ) (frame : frame3f) : scene :=
  { scn with shapes := scn.shapes.set bid { scn.shapes.getD bid shape0 with frame := frame } }

/-- `set_body_velocity`. -/
def set_body_velocity (scn : scene) (bid : ℕ) (lin_vel ang_vel : vec3f) : scene :=
  { scn with
    shapes := scn.shapes.set bid
      { scn.shapes.getD bid shape0 with lin_vel := lin_vel, ang_vel := ang_vel } }

/-- Per-tetrahedron inertia tensor, Tonon (2004) closed form, translated from
`_compute_tetra_inertia` (the two `j`-loops are written through `vec3f.comp`). -/
def compute_tetra_inertia (v0 v1 v2 v3 center : vec3f) : mat3f :=
  let volume := tetrahedron_volume v0 v1 v2 v3
  let vr0 := v0 - center
  let vr1 := v1 - center
  let vr2 := v2 - center
  let vr3 := v3 - center
  let diag : Fin 3 → ℚ := fun j =>
    (vr0.comp j * vr0.comp j + vr1.comp j * vr1.comp j + vr2.comp j * vr2.comp j +
        vr3.comp j * vr3.comp j + vr0.comp j * vr1.comp j + vr0.comp j * vr2.comp j +
        vr0.comp j * vr3.comp j + vr1.comp j * vr2.comp j + vr1.comp j * vr3.comp j +
        vr2.comp j * vr3.comp j) *
      6 * volume / 60
  let offd : Fin 3 → ℚ := fun j =>
    let j1 : Fin 3 := j + 1
    let j2 : Fin 3 := j + 2
    (2 * vr0.comp j1 * vr0.comp j2 + 2 * vr1.comp j1 * vr1.comp j2 +
        2 * vr2.comp j1 * vr2.comp j2 + 2 * vr3.comp j1 * vr3.comp j2 +
        vr1.comp j1 * vr0.comp j2 + vr2.comp j1 * vr0.comp j2 + vr3.comp j1 * vr0.comp j2 +
        vr0.comp j1 * vr1.comp j2 + vr2.comp j1 * vr1.comp j2 + vr3.comp j1 * vr1.comp j2 +
        vr0.comp j1 * vr2.comp j2 + vr1.comp j1 * vr2.comp j2 + vr3.comp j1 * vr2.comp j2 +
        vr0.comp j1 * vr3.comp j2 + vr1.comp j1 * vr3.comp j2 + vr2.comp j1 * vr3.comp j2) *
      6 * volume / 120
  ⟨⟨diag 1 + diag 2, -offd 2, -offd 1⟩,
   ⟨-offd 2, diag 0 + diag 2, -offd 0⟩,
   ⟨-offd 1, -offd 0, diag 0 + diag 1⟩⟩

/-- The three vertex positions of triangle `t` of a position array. -/
def tri_verts (pos : List vec3f) (t : ℕ × ℕ × ℕ) : vec3f × vec3f × vec3f :=
  (pos.getD t.1 0, pos.getD t.2.1 0, pos.getD t.2.2 0)

/-- `_compute_moments` on a triangle mesh: accumulate signed tetrahedron
volumes with apex at the origin and the volume-weighted tetrahedron
barycenters, divide the center by the volume, then accumulate the
per-tetrahedron inertia about that center and divide by the volume. -/
def compute_moments (triangles : List (ℕ × ℕ × ℕ)) (pos : List vec3f) :
    ℚ × vec3f × mat3f :=
  let vc :=
    triangles.foldl
      (fun (acc : ℚ × vec3f) t =>
        let v := tri_verts pos t
        let tvolume := tetrahedron_volume 0 v.1 v.2.1 v.2.2
        (acc.1 + tvolume, acc.2 + (tvolume • ((0 : vec3f) + v.1 + v.2.1 + v.2.2)) / (4 : ℚ)))
      (0, 0)
  let volume := vc.1
  let center := vc.2 / volume
  let inertia :=
    triangles.foldl
      (fun (acc : mat3f) t =>
        let v := tri_verts pos t
        acc + compute_tetra_inertia 0 v.1 v.2.1 v.2.2 center)
      0
  (volume, center, inertia / volume)

/-- World-space position of the witness's vertex of the second shape
(`p = transform_point(shape2->frame, shape2->pos[overlap.second[1]])`). -/
def overlap_world_vertex (scn : scene) (sids : ℕ × ℕ) (ov : overlap_point × (ℕ × ℕ)) :
    vec3f :=
  transform_point (scn.shapes.getD sids.2 shape0).frame
    ((scn.shapes.getD sids.2 shape0).pos.getD ov.2.2 0)

/-- World-space barycentric point of the witness's triangle of the first
shape. -/
def overlap_tp (scn : scene) (sids : ℕ × ℕ) (ov : overlap_point × (ℕ × ℕ)) : vec3f :=
  let shape1 := scn.shapes.getD sids.1 shape0
  let v := tri_verts shape1.pos ((shape1.triangles.getD []).getD ov.1.eid (0, 0, 0))
  transform_point shape1.frame (blerp v.1 v.2.1 v.2.2 ov.1.euv)

/-- World-space outward normal of the witness's triangle of the first
shape. -/
def overlap_normal (ym : ymath) (scn : scene) (sids : ℕ × ℕ)
    (ov : overlap_point × (ℕ × ℕ)) : vec3f :=
  let shape1 := scn.shapes.getD sids.1 shape0
  let v := tri_verts shape1.pos ((shape1.triangles.getD []).getD ov.1.eid (0, 0, 0))
  transform_direction shape1.frame (triangle_normal ym v.1 v.2.1 v.2.2)

/-- Body of the per-witness loop of `_compute_collision`: transform the second
shape's vertex and the first shape's triangle to world space, reject when the
vertex-to-triangle direction does not oppose the triangle normal beyond the
bias, otherwise emit a contact. -/
def witness_contact (ym : ymath) (scn : scene) (sids : ℕ × ℕ)
    (ov : overlap_point × (ℕ × ℕ)) : Option collision :=
  let p := overlap_world_vertex scn sids ov
  let tp := overlap_tp scn sids ov
  let n := overlap_normal ym scn sids ov
  let eps : ℚ := -(1 / 100)
  let ptp := ym.normalize (p - tp)
  if dot n ptp > eps then none
  else some { shapes := sids, depth := ov.1.dist, frame := ym.make_frame3_fromz p n }

/-- `_compute_collision`: query the vertex-overlap callback for the ordered
pair and emit one contact per accepted witness. -/
def compute_collision (ym : ymath) (cb : callbacks) (scn : scene) (sids : ℕ × ℕ) :
    List collision :=
  let overlaps := cb.overlap_verts scn sids.1 sids.2 scn.overlap_max_radius
  overlaps.filterMap (witness_contact ym scn sids)

/-- `_compute_collisions`: filter the broad-phase pairs (skip a pair whose two
bodies are both non-simulated, or either of whose bodies has no triangle
array) and run `_compute_collision` on each surviving pair in both orders.
The second component records, in order, the `(sid1, sid2)` arguments of every
`overlap_verts` invocation (one per `_compute_collision` call). -/
def compute_collisions_pairs (ym : ymath) (cb : callbacks) (scn : scene) :
    List (ℕ × ℕ) → List collision × List (ℕ × ℕ)
  | [] => ([], [])
  | sc :: rest =>
    let tail := compute_collisions_pairs ym cb scn rest
    if (scn.shapes.getD sc.1 shape0).simulated = false ∧
        (scn.shapes.getD sc.2 shape0).simulated = false then tail
    else if (scn.shapes.getD sc.1 shape0).triangles = none then tail
    else if (scn.shapes.getD sc.2 shape0).triangles = none then tail
    else
      (compute_collision ym cb scn (sc.1, sc.2) ++ compute_collision ym cb scn (sc.2, sc.1) ++
          tail.1,
        (sc.1, sc.2) :: (sc.2, sc.1) :: tail.2)

/-- `_compute_collisions` applied to the pairs returned by the broad-phase
callback. -/
def compute_collisions (ym : ymath) (cb : callbacks) (scn : scene) :
    List collision × List (ℕ × ℕ) :=
  compute_collisions_pairs ym cb scn (cb.overlap_shapes scn)

/-- `_apply_rel_impulse`: no-op on non-simulated bodies, otherwise adds
`impulse · M⁻¹` to the linear velocity and `I⁻¹_world · (r × impulse)` to the
angular velocity. -/
def apply_rel_impulse (shp : shape) (impulse rel_pos : vec3f) : shape :=
  if shp.simulated = false then shp
  else
    { shp with
      lin_vel := shp.lin_vel + shp.mass_inv • impulse,
      ang_vel := shp.ang_vel + shp.inertia_inv_world.mulVec (cross rel_pos impulse) }

/-- `_muldot`: `vᵀ · M · v`. -/
def muldot (v : vec3f) (m : mat3f) : ℚ := dot v (m.mulVec v)

/-- Initialization loop of `_solve_constraints`: zero the accumulated
impulses and compute the effective inverse masses along the three
contact-frame axes. -/
def solve_init (bodies : List shape) (col : collision) : collision :=
  let shape1 := bodies.getD col.shapes.1 shape0
  let shape2 := bodies.getD col.shapes.2 shape0
  let r1 := col.frame.pos - shape1.centroid_world
  let r2 := col.frame.pos - shape2.centroid_world
  { col with
    local_impulse := 0, impulse := 0,
    meff_inv :=
      ⟨1 / (shape1.mass_inv + shape2.mass_inv +
            muldot (cross r1 col.frame.x) shape1.inertia_inv_world +
            muldot (cross r2 col.frame.x) shape2.inertia_inv_world),
       1 / (shape1.mass_inv + shape2.mass_inv +
            muldot (cross r1 col.frame.y) shape1.inertia_inv_world +
            muldot (cross r2 col.frame.y) shape2.inertia_inv_world),
       1 / (shape1.mass_inv + shape2.mass_inv +
            muldot (cross r1 col.frame.z) shape1.inertia_inv_world +
            muldot (cross r2 col.frame.z) shape2.inertia_inv_world)⟩ }

/-- Relative velocity of the two bodies at the contact point (used by the
`vel_before`/`vel_after` observability passes of `_solve_constraints`). -/
def rel_velocity (bodies : List shape) (col : collision) : vec3f :=
  let shape1 := bodies.getD col.shapes.1 shape0
  let shape2 := bodies.getD col.shapes.2 shape0
  let r1 := col.frame.pos - shape1.centroid_world
  let r2 := col.frame.pos - shape2.centroid_world
  let v1 := shape1.lin_vel + cross shape1.ang_vel r1
  let v2 := shape2.lin_vel + cross shape2.ang_vel r2
  v2 - v1

/-- The three sequential clamp assignments of the inner solver loop: the
normal component is clamped to `[0, FLT_MAX]` (the upper bound is vacuous in
the rational embedding), then the first tangential component to
`[-0.6·λ_z, 0.6·λ_z]` and the second to `[-0.6·λ_z, λ_z - offset·0.6]`. -/
def clamp_accum (offset : ℚ) (li : vec3f) : vec3f :=
  let liz := max li.z 0
  let lix := clamp li.x (-liz * (3 / 5)) (liz * (3 / 5))
  let liy := clamp li.y (-liz * (3 / 5)) (liz - offset * (3 / 5))
  ⟨lix, liy, liz⟩

/-- Two consecutive `_apply_rel_impulse` calls on the bodies of a contact
(first `J1` at `r1` on the first body, then `J2` at `r2` on the second). The
bodies may alias, so the second call reads the list updated by the first, as
the source's pointer writes do. -/
def apply_rel_impulse_pair (l : List shape) (i1 i2 : ℕ) (J1 J2 r1 r2 : vec3f) : List shape :=
  let l1 := l.set i1 (apply_rel_impulse (l.getD i1 shape0) J1 r1)
  l1.set i2 (apply_rel_impulse (l1.getD i2 shape0) J2 r2)

/-- One inner-loop update of `_solve_constraints` for one contact: undo the
contact's accumulated impulse, accumulate the new local impulse increment,
clamp (normal non-negative, then the two friction components), and reapply
the reprojected impulse. -/
def solve_col (bodies : List shape) (col : collision) : List shape × collision :=
  let i1 := col.shapes.1
  let i2 := col.shapes.2
  let shape1 := bodies.getD i1 shape0
  let shape2 := bodies.getD i2 shape0
  let r1 := col.frame.pos - shape1.centroid_world
  let r2 := col.frame.pos - shape2.centroid_world
  let v1 := shape1.lin_vel + cross shape1.ang_vel r1
  let v2 := shape2.lin_vel + cross shape2.ang_vel r2
  let vr := v2 - v1
  let bodies2 := apply_rel_impulse_pair bodies i1 i2 col.impulse (-col.impulse) r1 r2
  let offset : ℚ := 0
  let local_impulse :=
    col.meff_inv *
      vec3f.mk (-dot col.frame.x vr) (-dot col.frame.y vr) (-dot col.frame.z vr + offset)
  let li := clamp_accum offset (col.local_impulse + local_impulse)
  let impulse := li.z • col.frame.z + li.x • col.frame.x + li.y • col.frame.y
  let bodies4 := apply_rel_impulse_pair bodies2 i1 i2 (-impulse) impulse r1 r2
  (bodies4, { col with local_impulse := li, impulse := impulse })

/-- One pass of the solver over the contact list, in list order. -/
def solve_pass (bodies : List shape) : List collision → List shape × List collision
  | [] => (bodies, [])
  | c :: cs =>
    let r := solve_col bodies c
    let rest := solve_pass r.1 cs
    (rest.1, r.2 :: rest.2)

/-- The fixed number of solver passes. -/
def solve_iters : ℕ → List shape × List collision → List shape × List collision
  | 0, s => s
  | n + 1, s => solve_iters n (solve_pass s.1 s.2)

/-- `_solve_constraints`: precomputation, `vel_before` observability pass,
the iterated PGS passes, then the `vel_after` and total-impulse
observability passes. Returns the updated bodies and contact list. -/
def solve_constraints (scn : scene) (collisions : List collision) (dt : ℚ) :
    List shape × List collision :=
  let cols1 := collisions.map (solve_init scn.shapes)
  let cols2 := cols1.map fun col => { col with vel_before := rel_velocity scn.shapes col }
  let s := solve_iters scn.iterations (scn.shapes, cols2)
  let cols3 := s.2.map fun col => { col with vel_after := rel_velocity s.1 col }
  let cols4 := cols3.map fun col =>
    { col with
      impulse := col.local_impulse.z • col.frame.z + col.local_impulse.x • col.frame.x +
        col.local_impulse.y • col.frame.y }
  (s.1, cols4)

/-- `init_simulation`: computes the cached mass properties of every simulated
body from its mesh; a non-simulated body gets zero mass, zero inverse mass,
zero centroids and zero (inverse) local inertia. -/
def init_simulation (scn : scene) : scene :=
  { scn with
    shapes := scn.shapes.map fun shp =>
      if shp.simulated then
        let m := compute_moments (shp.triangles.getD []) shp.pos
        let volume := m.1
        { shp with
          centroid_local := m.2.1, inertia_local := m.2.2,
          mass := shp.density * volume,
          centroid_world := transform_point shp.frame m.2.1,
          mass_inv := 1 / (shp.density * volume),
          inertia_inv_local := m.2.2.inv }
      else
        { shp with
          mass := 0, mass_inv := 0, centroid_local := 0, centroid_world := 0,
          inertia_local := 0, inertia_inv_local := 0 } }

/-- First loop of `advance_simulation`: refresh the cached world centroid and
world inverse inertia of every simulated body from its current frame. -/
def update_centroids (shp : shape) : shape :=
  if shp.simulated = false then shp
  else
    { shp with
      centroid_world := transform_point shp.frame shp.centroid_local,
      inertia_inv_world :=
        ((rot shp.frame).mul shp.inertia_inv_local).mul (rot shp.frame).transpose }

/-- Gravity loop of `advance_simulation`: add `gravity · dt` to the linear
velocity of every simulated body. -/
def apply_gravity (gravity : vec3f) (dt : ℚ) (shp : shape) : shape :=
  if shp.simulated = false then shp else { shp with lin_vel := shp.lin_vel + dt • gravity }

/-- Drag loop of `advance_simulation`: scale the velocities of every
simulated body by `(1 - drag)`. -/
def apply_drag (lin_drag ang_drag : ℚ) (shp : shape) : shape :=
  if shp.simulated = false then shp
  else
    { shp with
      lin_vel := (1 - lin_drag) • shp.lin_vel, ang_vel := (1 - ang_drag) • shp.ang_vel }

/-- Pose-advance loop of `advance_simulation`: move the world centroid by
`lin_vel · dt`, premultiply the rotation by an axis-angle rotation unless
`|ang_vel| · dt` is exactly zero, and translate the frame back so that the
centroid is preserved. -/
def advance_pose (ym : ymath) (dt : ℚ) (shp : shape) : shape :=
  if shp.simulated = false then shp
  else
    let centroid := (rot shp.frame).mulVec shp.centroid_local + shp.frame.pos
    let centroid1 := centroid + dt • shp.lin_vel
    let angle := ym.length shp.ang_vel * dt
    let rot1 :=
      if angle ≠ 0 then (ym.rotation_mat3 (ym.normalize shp.ang_vel) angle).mul (rot shp.frame)
      else rot shp.frame
    { shp with frame := frame_of rot1 (centroid1 - rot1.mulVec shp.centroid_local) }

/-- `advance_simulation`: refresh cached centroids and inertias, build
collisions, apply gravity, solve constraints, store the contact list for
inspection, apply drag, then advance poses. The refit callback only updates
the caller's spatial index and has no effect on the scene. -/
def advance_simulation (ym : ymath) (cb : callbacks) (scn : scene) (dt : ℚ) : scene :=
  let scn1 := { scn with shapes := scn.shapes.map update_centroids }
  let collisions := (compute_collisions ym cb scn1).1
  let scn2 := { scn1 with shapes := scn1.shapes.map (apply_gravity scn.gravity dt) }
  let s := solve_constraints scn2 collisions dt
  let scn3 := { scn2 with shapes := s.1, collisions_viz := s.2 }
  let scn4 := { scn3 with shapes := scn3.shapes.map (apply_drag scn.lin_drag scn.ang_drag) }
  { scn4 with shapes := scn4.shapes.map (advance_pose ym dt) }

/-- A finite sequence of `advance_simulation` steps. -/
def advance_iter (ym : ymath) (cb : callbacks) (scn : scene) (dt : ℚ) : ℕ → scene
  | 0 => scn
  | n + 1 => advance_iter ym cb (advance_simulation ym cb scn dt) dt n

/-- Determinant of the 3×3 matrix with the given columns, written as a scalar
triple product (used by the spec-side moments definition). -/
def det3 (a b c : vec3f) : ℚ := dot a (cross b c)

/-- Definition following the spec's words (§4.1): the Tonon (2004)
per-tetrahedron inertia tensor for vertices `(a, b, c, d)` expressed relative
to `center`, with signed volume `v`:
`diag_j = (Σᵢ rᵢⱼ² + Σᵢ<ₖ rᵢⱼ·rₖⱼ) · 6v / 60` and
`offd_j = (2·Σᵢ rᵢⱼ₁·rᵢⱼ₂ + Σᵢ≠ₖ rᵢⱼ₁·rₖⱼ₂) · 6v / 120` with
`(j₁, j₂) = ((j+1)%3, (j+2)%3)`, assembled as
`[[diag_y+diag_z, −offd_z, −offd_y], [−offd_z, diag_x+diag_z, −offd_x],
[−offd_y, −offd_x, diag_x+diag_y]]`. -/
def tonon_spec (a b c d center : vec3f) : mat3f :=
  let v := det3 (b - a) (c - a) (d - a) / 6
  let r : Fin 4 → vec3f := ![a - center, b - center, c - center, d - center]
  let diag : Fin 3 → ℚ := fun j =>
    ((Finset.univ.sum fun i : Fin 4 => (r i).comp j * (r i).comp j) +
        Finset.univ.sum fun i : Fin 4 =>
          Finset.univ.sum fun k : Fin 4 =>
            if i < k then (r i).comp j * (r k).comp j else 0) *
      (6 * v) / 60
  let offd : Fin 3 → ℚ := fun j =>
    (2 * Finset.univ.sum (fun i : Fin 4 => (r i).comp (j + 1) * (r i).comp (j + 2)) +
        Finset.univ.sum fun i : Fin 4 =>
          Finset.univ.sum fun k : Fin 4 =>
            if i ≠ k then (r i).comp (j + 1) * (r k).comp (j + 2) else 0) *
      (6 * v) / 120
  ⟨⟨diag 1 + diag 2, -offd 2, -offd 1⟩,
   ⟨-offd 2, diag 0 + diag 2, -offd 0⟩,
   ⟨-offd 1, -offd 0, diag 0 + diag 1⟩⟩

/-- Definition following the spec's words (§4.1): per triangle `(v₀, v₁, v₂)`
the tetrahedron `(0, v₀, v₁, v₂)` has signed volume `det(v₀, v₁, v₂)/6`;
`V = Σ v`, `C = Σ (v · (0 + v₀ + v₁ + v₂)/4) / V`, and the inertia tensor is
the sum of the per-tetrahedron Tonon tensors about `C`, divided by `V`. -/
def moments_spec (triangles : List (ℕ × ℕ × ℕ)) (pos : List vec3f) :
    ℚ × vec3f × mat3f :=
  let vol : (ℕ × ℕ × ℕ) → ℚ := fun t =>
    let v := tri_verts pos t
    det3 v.1 v.2.1 v.2.2 / 6
  let V := (triangles.map vol).sum
  let C :=
    (triangles.map fun t =>
        let v := tri_verts pos t
        (vol t • ((0 : vec3f) + v.1 + v.2.1 + v.2.2)) / (4 : ℚ)).sum / V
  let I :=
    (triangles.map fun t =>
        let v := tri_verts pos t
        tonon_spec 0 v.1 v.2.1 v.2.2 C).sum / V
  (V, C, I)

/-- A concrete instance of the irrational yocto_math helpers, used to
evaluate the embedding on closed inputs whose runs never normalize a nonzero
vector (`length` is exact at the zero vector, which is the only value those
runs consult). -/
def ymath0 : ymath where
  normalize := fun v => v
  length := fun v => if v = 0 then 0 else 1
  rotation_mat3 := fun _ _ => identity_mat3f
  make_frame3_fromz := fun p n => { x := ⟨1, 0, 0⟩, y := ⟨0, 1, 0⟩, z := n, pos := p }

/-- Callbacks reporting no candidate pairs and no vertex overlaps. -/
def cb0 : callbacks where
  overlap_shapes := fun _ => []
  overlap_verts := fun _ _ _ _ => []

/-- Callbacks reporting one candidate pair `(0, 1)` and no vertex overlaps. -/
def cb01 : callbacks where
  overlap_shapes := fun _ => [(0, 1)]
  overlap_verts := fun _ _ _ _ => []

/-- Fixture for the friction-clamp counterexample: body 1 moves with relative
velocity `(0, -0.9, -1)` at a contact whose frame is the world frame. -/
def c1_bodies : List shape :=
  [{ shape0 with centroid_world := 0 }, { shape0 with lin_vel := ⟨0, -(9 / 10), -1⟩ }]

/-- Contact fixture for the friction-clamp counterexample. -/
def c1_col : collision :=
  { shapes := (0, 1), frame := identity_frame3f, meff_inv := ⟨1, 1, 1⟩ }

/-- Fixture: a scene holding one non-simulated (density 0) unit-mass body. -/
def c2_body : shape :=
  { shape0 with
    density := 0
    simulated := false
    lin_vel := ⟨1, 2, 3⟩
    ang_vel := ⟨4, 5, 6⟩
    frame := { pos := ⟨7, 8, 9⟩ } }

/-- The scene holding just `c2_body`. -/
def c2_scene : scene := { shapes := [c2_body] }

/-- Fixture: one simulated body at height 10 with a consistent centroid cache
on entry (local centroid 0, world centroid equal to the frame origin). -/
def c3_scene : scene :=
  { shapes := [{ shape0 with frame := { pos := ⟨0, 10, 0⟩ }, centroid_world := ⟨0, 10, 0⟩ }] }

/-- Fixture for the collision builder: shape 0 carries one triangle in the
`z = 0` plane, shape 1 carries a single vertex below it. -/
def c4_scene : scene :=
  { shapes :=
      [{ shape0 with triangles := some [(0, 1, 2)], pos := [⟨0, 0, 0⟩, ⟨1, 0, 0⟩, ⟨0, 1, 0⟩] },
       { shape0 with triangles := some [(0, 1, 2)], pos := [⟨0, 0, -1⟩] }] }

/-- A vertex-overlap witness: vertex 0 of the second shape against triangle 0
of the first, with barycentric weight on the triangle's first vertex. -/
def c4_overlap : overlap_point × (ℕ × ℕ) :=
  ({ dist := 1 / 10, sid := 0, eid := 0, euv := (1, 0, 0, 0) }, (0, 0))

/-- Fixture: a static body without geometry and a simulated body with a
triangle, so that a broad-phase pair between them survives the filters only
when both carry triangles. -/
def c5_body0 : shape :=
  { shape0 with
    density := 0
    simulated := false
    triangles := some [(0, 1, 2)]
    pos := [⟨0, 0, 0⟩, ⟨1, 0, 0⟩, ⟨0, 1, 0⟩] }

/-- Simulated body of the `c5_scene` fixture. -/
def c5_body1 : shape :=
  { shape0 with
    triangles := some [(0, 1, 2)]
    pos := [⟨0, 0, 1⟩, ⟨1, 0, 1⟩, ⟨0, 1, 1⟩] }

/-- Static geometry-less body of the `c5_scene` fixture. -/
def c5_body2 : shape := { shape0 with density := 0, simulated := false, triangles := none }

/-- The three-body broad-phase fixture scene. -/
def c5_scene : scene := { shapes := [c5_body0, c5_body1, c5_body2] }

/-- Fixture: one default simulated body in free flight. -/
def c7_scene : scene := { shapes := [shape0] }

/-- Fixture: a simulated body with zero angular velocity and nonzero linear
velocity. -/
def c8_shape : shape := { shape0 with lin_vel := ⟨1, 0, 0⟩, ang_vel := 0 }

/-- Fixture: bodies of a contact whose second body is static after
`init_simulation` (zero inverse mass, default identity world inverse
inertia). -/
def c10_static : shape :=
  { shape0 with
    density := 0
    simulated := false
    mass := 0
    mass_inv := 0
    centroid_world := 0 }

/-- The two bodies of the static-contact fixture. -/
def c10_bodies : List shape := [{ shape0 with centroid_world := ⟨0, 1, 0⟩ }, c10_static]

/-- Contact fixture between the two `c10_bodies`. -/
def c10_col : collision :=
  { shapes := (0, 1), frame := { pos := ⟨0, 1 / 2, 0⟩ }, meff_inv := ⟨1, 1, 1⟩ }

/-- Definition following the spec's words (§4.2, §7): a broad-phase pair is
dropped when both bodies have density 0, or either body has no triangle
array bound. -/
def pair_dropped (scn : scene) (sc : ℕ × ℕ) : Prop :=
  ((scn.shapes.getD sc.1 shape0).density = 0 ∧ (scn.shapes.getD sc.2 shape0).density = 0) ∨
  (scn.shapes.getD sc.1 shape0).triangles = none ∨
  (scn.shapes.getD sc.2 shape0).triangles = none

instance (scn : scene) (sc : ℕ × ℕ) : Decidable (pair_dropped scn sc) := by
  unfold pair_dropped; infer_instance

/-- Callbacks reporting the candidate pairs `(0, 1)` and `(1, 2)` and no
vertex overlaps. -/
def c5_cb : callbacks where
  overlap_shapes := fun _ => [(0, 1), (1, 2)]
  overlap_verts := fun _ _ _ _ => []

/-- Unfolding lemma for vector addition. -/
@[simp] theorem vec3f_add_def (a b : vec3f) : a + b = ⟨a.x + b.x, a.y + b.y, a.z + b.z⟩ := rfl

/-- Unfolding lemma for vector subtraction. -/
@[simp] theorem vec3f_sub_def (a b : vec3f) : a - b = ⟨a.x - b.x, a.y - b.y, a.z - b.z⟩ := rfl

/-- Unfolding lemma for vector negation. -/
@[simp] theorem vec3f_neg_def (a : vec3f) : -a = ⟨-a.x, -a.y, -a.z⟩ := rfl

/-- Unfolding lemma for the componentwise vector product. -/
@[simp] theorem vec3f_mul_def (a b : vec3f) : a * b = ⟨a.x * b.x, a.y * b.y, a.z * b.z⟩ := rfl

/-- Unfolding lemma for scalar multiplication. -/
@[simp] theorem vec3f_smul_def (q : ℚ) (a : vec3f) : q • a = ⟨q * a.x, q * a.y, q * a.z⟩ := rfl

/-- Unfolding lemma for division of a vector by a scalar. -/
@[simp] theorem vec3f_div_def (a : vec3f) (q : ℚ) : a / q = ⟨a.x / q, a.y / q, a.z / q⟩ := rfl

/-- Unfolding lemma for the zero vector. -/
theorem vec3f_zero_def : (0 : vec3f) = ⟨0, 0, 0⟩ := rfl

/-- First component of the zero vector. -/
@[simp] theorem vec3f_zero_x : (0 : vec3f).x = 0 := rfl

/-- Second component of the zero vector. -/
@[simp] theorem vec3f_zero_y : (0 : vec3f).y = 0 := rfl

/-- Third component of the zero vector. -/
@[simp] theorem vec3f_zero_z : (0 : vec3f).z = 0 := rfl

/-- Unfolding lemma for matrix addition. -/
@[simp] theorem mat3f_add_def (a b : mat3f) :
    a + b = ⟨a.cx + b.cx, a.cy + b.cy, a.cz + b.cz⟩ := rfl

/-- Unfolding lemma for division of a matrix by a scalar. -/
@[simp] theorem mat3f_div_def (m : mat3f) (q : ℚ) :
    m / q = ⟨m.cx / q, m.cy / q, m.cz / q⟩ := rfl

/-- Unfolding lemma for the zero matrix. -/
@[simp] theorem mat3f_zero_def : (0 : mat3f) = ⟨0, 0, 0⟩ := rfl

/-- Reading a list at an in-bounds index after `set` at that index. -/
theorem getD_set_eq {α : Type} (l : List α) (i : ℕ) (a d : α) (h : i < l.length) :
    (l.set i a).getD i d = a := by
  induction l generalizing i with
  | nil => simp at h
  | cons b t ih =>
    cases i with
    | zero => rfl
    | succ i => exact ih i (by simpa using h)

/-- Reading a list at an index different from the one just set. -/
theorem getD_set_ne {α : Type} (l : List α) (i j : ℕ) (a d : α) (h : i ≠ j) :
    (l.set i a).getD j d = l.getD j d := by
  induction l generalizing i j with
  | nil => rfl
  | cons b t ih =>
    cases i with
    | zero => cases j with
      | zero => exact absurd rfl h
      | succ j => rfl
    | succ i => cases j with
      | zero => rfl
      | succ j => exact ih i j (by omega)

/-- Out-of-bounds reads return the default. -/
theorem getD_len_le {α : Type} (l : List α) (i : ℕ) (d : α) (h : l.length ≤ i) :
    l.getD i d = d := by
  induction l generalizing i with
  | nil => rfl
  | cons b t ih =>
    cases i with
    | zero => simp at h
    | succ i => exact ih i (by simpa using h)

/-- Out-of-bounds `set` leaves the list unchanged. -/
theorem set_len_le {α : Type} (l : List α) (i : ℕ) (a : α) (h : l.length ≤ i) :
    l.set i a = l := by
  induction l generalizing i with
  | nil => rfl
  | cons b t ih =>
    cases i with
    | zero => simp at h
    | succ i => simpa using ih i (by simpa using h)

/-- Reading a mapped list at an in-bounds index. -/
theorem getD_map_lt {α β : Type} (f : α → β) (l : List α) (i : ℕ) (d : α) (e : β)
    (h : i < l.length) : (l.map f).getD i e = f (l.getD i d) := by
  induction l generalizing i with
  | nil => simp at h
  | cons b t ih =>
    cases i with
    | zero => rfl
    | succ i => exact ih i (by simpa using h)

/-- The solver's in-place update pattern `l.set k (g (l.getD k _))` preserves
any body field that `g` preserves, at every index. -/
theorem getD_set_proj {α : Type} (proj : shape → α) (l : List shape) (k i : ℕ)
    (g : shape → shape) (hg : ∀ s, proj (g s) = proj s) :
    proj ((l.set k (g (l.getD k shape0))).getD i shape0) = proj (l.getD i shape0) := by
  rcases Nat.lt_or_ge k l.length with hk | hk
  · rcases eq_or_ne k i with rfl | hne
    · rw [getD_set_eq _ _ _ _ hk, hg]
    · rw [getD_set_ne _ _ _ _ _ hne]
  · rw [set_len_le _ _ _ hk]

/-- The update pattern `l.set k (g (l.getD k _))` leaves a body at index `i`
unchanged when `g` fixes that body (for instance a non-simulated one). -/
theorem getD_set_fix (l : List shape) (k i : ℕ) (g : shape → shape)
    (hfix : g (l.getD i shape0) = l.getD i shape0) :
    (l.set k (g (l.getD k shape0))).getD i shape0 = l.getD i shape0 := by
  rcases Nat.lt_or_ge k l.length with hk | hk
  · rcases eq_or_ne k i with rfl | hne
    · rw [getD_set_eq _ _ _ _ hk, hfix]
    · rw [getD_set_ne _ _ _ _ _ hne]
  · rw [set_len_le _ _ _ hk]

/-- `_apply_rel_impulse` is the identity on non-simulated bodies. -/
theorem apply_rel_impulse_static (s : shape) (impulse rel_pos : vec3f)
    (h : s.simulated = false) : apply_rel_impulse s impulse rel_pos = s := by
  simp [apply_rel_impulse, h]

/-- A paired impulse application leaves a non-simulated body at `i`
unchanged. -/
theorem pair_static (l : List shape) (i1 i2 i : ℕ) (J1 J2 r1 r2 : vec3f)
    (h : (l.getD i shape0).simulated = false) :
    (apply_rel_impulse_pair l i1 i2 J1 J2 r1 r2).getD i shape0 = l.getD i shape0 := by
  unfold apply_rel_impulse_pair
  have e1 := getD_set_fix l i1 i (fun s => apply_rel_impulse s J1 r1)
    (apply_rel_impulse_static _ _ _ h)
  have e2 := getD_set_fix (l.set i1 (apply_rel_impulse (l.getD i1 shape0) J1 r1)) i2 i
    (fun s => apply_rel_impulse s J2 r2)
    (apply_rel_impulse_static _ _ _ (by rw [e1]; exact h))
  exact e2.trans e1

/-- A paired impulse application preserves any body field that
`_apply_rel_impulse` preserves, at every index. -/
theorem pair_proj {α : Type} (proj : shape → α)
    (hp : ∀ s imp r, proj (apply_rel_impulse s imp r) = proj s)
    (l : List shape) (i1 i2 i : ℕ) (J1 J2 r1 r2 : vec3f) :
    proj ((apply_rel_impulse_pair l i1 i2 J1 J2 r1 r2).getD i shape0) =
      proj (l.getD i shape0) := by
  unfold apply_rel_impulse_pair
  have e2 := getD_set_proj proj (l.set i1 (apply_rel_impulse (l.getD i1 shape0) J1 r1)) i2 i
    (fun s => apply_rel_impulse s J2 r2) (fun s => hp s J2 r2)
  have e1 := getD_set_proj proj l i1 i (fun s => apply_rel_impulse s J1 r1)
    (fun s => hp s J1 r1)
  exact e2.trans e1

/-- One contact update of the solver does not change a non-simulated body. -/
theorem solve_col_static (bodies : List shape) (col : collision) (i : ℕ)
    (h : (bodies.getD i shape0).simulated = false) :
    (solve_col bodies col).1.getD i shape0 = bodies.getD i shape0 := by
  simp only [solve_col]
  rw [pair_static _ _ _ _ _ _ _ _ (by rw [pair_static _ _ _ _ _ _ _ _ h]; exact h),
    pair_static _ _ _ _ _ _ _ _ h]

/-- A solver pass over the contact list does not change a non-simulated
body. -/
theorem solve_pass_static (cols : List collision) (bodies : List shape) (i : ℕ)
    (h : (bodies.getD i shape0).simulated = false) :
    (solve_pass bodies cols).1.getD i shape0 = bodies.getD i shape0 := by
  induction cols generalizing bodies with
  | nil => rfl
  | cons c cs ih =>
    have e := solve_col_static bodies c i h
    have e2 := ih (solve_col bodies c).1 (by rw [e]; exact h)
    simp only [solve_pass]
    exact e2.trans e

/-- The iterated solver passes do not change a non-simulated body (and the
body stays non-simulated). -/
theorem solve_iters_static (n : ℕ) (bodies : List shape) (cols : List collision) (i : ℕ)
    (h : (bodies.getD i shape0).simulated = false) :
    (solve_iters n (bodies, cols)).1.getD i shape0 = bodies.getD i shape0 ∧
    ((solve_iters n (bodies, cols)).1.getD i shape0).simulated = false := by
  induction n generalizing bodies cols with
  | zero => exact ⟨rfl, h⟩
  | succ n ih =>
    have e := solve_pass_static cols bodies i h
    have h2 : ((solve_pass bodies cols).1.getD i shape0).simulated = false := by
      rw [e]; exact h
    have step := ih (solve_pass bodies cols).1 (solve_pass bodies cols).2 h2
    simp only [solve_iters]
    exact ⟨step.1.trans e, step.2⟩

/-- Mapping a per-body phase that fixes non-simulated bodies does not change
a non-simulated body (at every index: an out-of-bounds read is the default
shape on both sides), and the body stays non-simulated. -/
theorem map_static (f : shape → shape) (hf : ∀ s, s.simulated = false → f s = s)
    (l : List shape) (i : ℕ) (h : (l.getD i shape0).simulated = false) :
    (l.map f).getD i shape0 = l.getD i shape0 ∧
    ((l.map f).getD i shape0).simulated = false := by
  have e : (l.map f).getD i shape0 = l.getD i shape0 := by
    rcases Nat.lt_or_ge i l.length with hi | hi
    · rw [getD_map_lt f l i shape0 shape0 hi, hf _ h]
    · rw [getD_len_le _ _ _ hi, getD_len_le _ _ _ (by simpa using hi)]
  exact ⟨e, by rw [e]; exact h⟩

/-- One `advance_simulation` step leaves a non-simulated body (its whole
record: frame, velocities, density, geometry and caches) unchanged. -/
theorem advance_simulation_static (ym : ymath) (cb : callbacks) (scn : scene) (dt : ℚ)
    (i : ℕ) (h : (scn.shapes.getD i shape0).simulated = false) :
    (advance_simulation ym cb scn dt).shapes.getD i shape0 = scn.shapes.getD i shape0 := by
  simp only [advance_simulation, solve_constraints]
  have s1 := map_static update_centroids (fun s hs => by simp [update_centroids, hs])
    scn.shapes i h
  have s2 := map_static (apply_gravity scn.gravity dt)
    (fun s hs => by simp [apply_gravity, hs]) _ i s1.2
  have s3 := fun cols => solve_iters_static scn.iterations _ cols i s2.2
  have s4 := fun cols => map_static (apply_drag scn.lin_drag scn.ang_drag)
    (fun s hs => by simp [apply_drag, hs]) _ i (s3 cols).2
  have s5 := fun cols => map_static (advance_pose ym dt)
    (fun s hs => by simp [advance_pose, hs]) _ i (s4 cols).2
  exact ((s5 _).1).trans (((s4 _).1).trans (((s3 _).1).trans (s2.1.trans s1.1)))

/-- Any finite number of `advance_simulation` steps leaves a non-simulated
body unchanged. -/
theorem advance_iter_static (ym : ymath) (cb : callbacks) (scn : scene) (dt : ℚ) (n i : ℕ)
    (h : (scn.shapes.getD i shape0).simulated = false) :
    (advance_iter ym cb scn dt n).shapes.getD i shape0 = scn.shapes.getD i shape0 := by
  induction n generalizing scn with
  | zero => rfl
  | succ n ih =>
    have e := advance_simulation_static ym cb scn dt i h
    have e2 := ih (advance_simulation ym cb scn dt) (by rw [e]; exact h)
    simp only [advance_iter]
    exact e2.trans e

/-- C2: a body whose density is 0 (hence non-simulated, as `set_body`
establishes) keeps its frame, linear velocity and angular velocity exactly
unchanged across any finite sequence of `advance_simulation` steps, for any
timestep, any callbacks and any yocto_math helpers. -/
theorem C2_static_body (ym : ymath) (cb : callbacks) (scn : scene) (dt : ℚ) (n i : ℕ)
    (hd : (scn.shapes.getD i shape0).density = 0)
    (hs : (scn.shapes.getD i shape0).simulated =
      decide ((scn.shapes.getD i shape0).density > 0)) :
    ((advance_iter ym cb scn dt n).shapes.getD i shape0).frame =
      (scn.shapes.getD i shape0).frame ∧
    ((advance_iter ym cb scn dt n).shapes.getD i shape0).lin_vel =
      (scn.shapes.getD i shape0).lin_vel ∧
    ((advance_iter ym cb scn dt n).shapes.getD i shape0).ang_vel =
      (scn.shapes.getD i shape0).ang_vel := by
  have hstat : (scn.shapes.getD i shape0).simulated = false := by
    rw [hs, hd]; simp
  have e := advance_iter_static ym cb scn dt n i hstat
  exact ⟨congrArg shape.frame e, congrArg shape.lin_vel e, congrArg shape.ang_vel e⟩

/-- Witness for C2: two steps on a concrete one-body scene with a density-0
body and a broad-phase callback reporting a candidate pair. -/
theorem C2_static_body_witness :
    ((c2_scene.shapes.getD 0 shape0).density = 0 ∧
      (c2_scene.shapes.getD 0 shape0).simulated =
        decide ((c2_scene.shapes.getD 0 shape0).density > 0)) ∧
    (((advance_iter ymath0 cb01 c2_scene 1 2).shapes.getD 0 shape0).frame =
        (c2_scene.shapes.getD 0 shape0).frame ∧
      ((advance_iter ymath0 cb01 c2_scene 1 2).shapes.getD 0 shape0).lin_vel =
        (c2_scene.shapes.getD 0 shape0).lin_vel ∧
      ((advance_iter ymath0 cb01 c2_scene 1 2).shapes.getD 0 shape0).ang_vel =
        (c2_scene.shapes.getD 0 shape0).ang_vel) :=
  ⟨⟨by simp [c2_scene, c2_body], by simp [c2_scene, c2_body]⟩,
    C2_static_body ymath0 cb01 c2_scene 1 2 0 (by simp [c2_scene, c2_body])
      (by simp [c2_scene, c2_body])⟩

/-- Mapping a per-body phase preserves any body field the phase preserves,
at every index. -/
theorem map_proj {α : Type} (proj : shape → α) (f : shape → shape)
    (hf : ∀ s, proj (f s) = proj s) (l : List shape) (i : ℕ) :
    proj ((l.map f).getD i shape0) = proj (l.getD i shape0) := by
  rcases Nat.lt_or_ge i l.length with hi | hi
  · rw [getD_map_lt f l i shape0 shape0 hi, hf]
  · rw [getD_len_le _ _ _ hi, getD_len_le _ _ _ (by simpa using hi)]

/-- `_apply_rel_impulse` only writes velocities: it preserves the cached
world centroid. -/
theorem apply_rel_impulse_cw (s : shape) (imp r : vec3f) :
    (apply_rel_impulse s imp r).centroid_world = s.centroid_world := by
  unfold apply_rel_impulse
  by_cases h : s.simulated = false <;> simp [h]

/-- One contact update of the solver preserves every cached world centroid. -/
theorem solve_col_cw (bodies : List shape) (col : collision) (i : ℕ) :
    ((solve_col bodies col).1.getD i shape0).centroid_world =
      (bodies.getD i shape0).centroid_world := by
  simp only [solve_col]
  rw [pair_proj shape.centroid_world apply_rel_impulse_cw,
    pair_proj shape.centroid_world apply_rel_impulse_cw]

/-- A solver pass preserves every cached world centroid. -/
theorem solve_pass_cw (cols : List collision) (bodies : List shape) (i : ℕ) :
    ((solve_pass bodies cols).1.getD i shape0).centroid_world =
      (bodies.getD i shape0).centroid_world := by
  induction cols generalizing bodies with
  | nil => rfl
  | cons c cs ih =>
    simp only [solve_pass]
    exact (ih (solve_col bodies c).1).trans (solve_col_cw bodies c i)

/-- The iterated solver passes preserve every cached world centroid. -/
theorem solve_iters_cw (n : ℕ) (bodies : List shape) (cols : List collision) (i : ℕ) :
    ((solve_iters n (bodies, cols)).1.getD i shape0).centroid_world =
      (bodies.getD i shape0).centroid_world := by
  induction n generalizing bodies cols with
  | zero => rfl
  | succ n ih =>
    simp only [solve_iters]
    exact (ih (solve_pass bodies cols).1 (solve_pass bodies cols).2).trans
      (solve_pass_cw cols bodies i)

/-- A solver pass over an empty contact list changes nothing. -/
theorem solve_iters_nil (n : ℕ) (bodies : List shape) :
    solve_iters n (bodies, []) = (bodies, []) := by
  induction n with
  | zero => rfl
  | succ n ih => simpa [solve_iters, solve_pass] using ih

/-- `_solve_constraints` with an empty contact list changes no body. -/
theorem solve_constraints_nil (scn : scene) (dt : ℚ) :
    solve_constraints scn [] dt = (scn.shapes, []) := by
  simp [solve_constraints, solve_iters_nil]

/-- C3 (amended): the cached world centroid of every simulated body is
refreshed at the start of `advance_simulation` to `rotation · local_centroid
+ translation` of the frame current at that point, so the invariant holds
right after the on-entry refresh; the cache is then left untouched for the
rest of the step, so on exit it still holds the entry frame's value (not the
exit frame's). -/
theorem C3_centroid_cache (ym : ymath) (cb : callbacks) (scn : scene) (dt : ℚ) (i : ℕ)
    (hlen : i < scn.shapes.length)
    (hsim : (scn.shapes.getD i shape0).simulated = true) :
    ((scn.shapes.map update_centroids).getD i shape0).centroid_world =
      transform_point ((scn.shapes.map update_centroids).getD i shape0).frame
        ((scn.shapes.map update_centroids).getD i shape0).centroid_local ∧
    ((advance_simulation ym cb scn dt).shapes.getD i shape0).centroid_world =
      transform_point (scn.shapes.getD i shape0).frame
        (scn.shapes.getD i shape0).centroid_local := by
  have hrefresh : ((scn.shapes.map update_centroids).getD i shape0).centroid_world =
      transform_point (scn.shapes.getD i shape0).frame
        (scn.shapes.getD i shape0).centroid_local := by
    rw [getD_map_lt update_centroids scn.shapes i shape0 shape0 hlen]
    unfold update_centroids
    rw [hsim]
    simp
  constructor
  · rw [getD_map_lt update_centroids scn.shapes i shape0 shape0 hlen]
    unfold update_centroids
    rw [hsim]
    simp
  · have hgrav : ∀ s : shape,
        (apply_gravity scn.gravity dt s).centroid_world = s.centroid_world := by
      intro s; unfold apply_gravity; by_cases h : s.simulated = false <;> simp [h]
    have hdrag : ∀ s : shape,
        (apply_drag scn.lin_drag scn.ang_drag s).centroid_world = s.centroid_world := by
      intro s; unfold apply_drag; by_cases h : s.simulated = false <;> simp [h]
    have hpose : ∀ s : shape, (advance_pose ym dt s).centroid_world = s.centroid_world := by
      intro s; unfold advance_pose; by_cases h : s.simulated = false <;> simp [h]
    simp only [advance_simulation, solve_constraints]
    exact (map_proj shape.centroid_world (advance_pose ym dt) hpose _ i).trans
      ((map_proj shape.centroid_world (apply_drag scn.lin_drag scn.ang_drag) hdrag _ i).trans
        ((solve_iters_cw scn.iterations _ _ i).trans
          ((map_proj shape.centroid_world (apply_gravity scn.gravity dt) hgrav _ i).trans
            hrefresh)))

/-- C3 (counterexample): on a one-body scene whose centroid cache is
consistent on entry, one `advance_simulation` step leaves the cache holding
the entry value while the frame has moved under gravity, so on exit the
cached world centroid does not equal `rotation · local_centroid +
translation` of the current frame. -/
theorem C3_centroid_cache_counterexample :
    ¬ (((advance_simulation ymath0 cb0 c3_scene 1).shapes.getD 0 shape0).centroid_world =
        transform_point
          ((advance_simulation ymath0 cb0 c3_scene 1).shapes.getD 0 shape0).frame
          ((advance_simulation ymath0 cb0 c3_scene 1).shapes.getD 0 shape0).centroid_local) := by
  simp [advance_simulation, compute_collisions, cb0, compute_collisions_pairs,
    solve_constraints_nil, c3_scene, update_centroids, apply_gravity, apply_drag,
    advance_pose, ymath0, shape0, transform_point, transform_direction, rot, mat3f.mulVec,
    identity_frame3f, frame_of, mat3f.mul, mat3f.transpose, identity_mat3f, dot, cross,
    vec3f_zero_def]
  norm_num

/-- Witness for the amended C3 theorem at the concrete fixture scene. -/
theorem C3_centroid_cache_witness :
    (0 < c3_scene.shapes.length ∧ (c3_scene.shapes.getD 0 shape0).simulated = true) ∧
    (((c3_scene.shapes.map update_centroids).getD 0 shape0).centroid_world =
        transform_point ((c3_scene.shapes.map update_centroids).getD 0 shape0).frame
          ((c3_scene.shapes.map update_centroids).getD 0 shape0).centroid_local ∧
      ((advance_simulation ymath0 cb0 c3_scene 1).shapes.getD 0 shape0).centroid_world =
        transform_point (c3_scene.shapes.getD 0 shape0).frame
          (c3_scene.shapes.getD 0 shape0).centroid_local) :=
  ⟨⟨by simp [c3_scene], rfl⟩, C3_centroid_cache ymath0 cb0 c3_scene 1 0 (by simp [c3_scene]) rfl⟩

/-- C4: for every vertex-overlap witness processed for an ordered pair, with
`p` the second shape's vertex in world space, `tp` the barycentric point of
the first shape's world-space triangle and `n` that triangle's world-space
outward normal, a contact is emitted if and only if
`dot(n, normalize(p − tp)) ≤ −0.01`; the emitted contact carries the ordered
body pair, a frame with origin `p` and z-axis `n`, and the witness distance
as depth; and `_compute_collision` appends exactly the contacts of the
accepted witnesses reported by the vertex-overlap callback. -/
theorem C4_vertex_face_filter (ym : ymath) (cb : callbacks) (scn : scene) (sids : ℕ × ℕ)
    (ov : overlap_point × (ℕ × ℕ))
    (hmk : ∀ p n, (ym.make_frame3_fromz p n).pos = p ∧ (ym.make_frame3_fromz p n).z = n) :
    ((witness_contact ym scn sids ov).isSome ↔
      dot (overlap_normal ym scn sids ov)
        (ym.normalize (overlap_world_vertex scn sids ov - overlap_tp scn sids ov)) ≤
        -(1 / 100)) ∧
    (∀ col, witness_contact ym scn sids ov = some col →
      col.shapes = sids ∧ col.depth = ov.1.dist ∧
      col.frame.pos = overlap_world_vertex scn sids ov ∧
      col.frame.z = overlap_normal ym scn sids ov) ∧
    compute_collision ym cb scn sids =
      (cb.overlap_verts scn sids.1 sids.2 scn.overlap_max_radius).filterMap
        (witness_contact ym scn sids) := by
  simp only [witness_contact]
  by_cases h : dot (overlap_normal ym scn sids ov)
      (ym.normalize (overlap_world_vertex scn sids ov - overlap_tp scn sids ov)) >
      -(1 / 100)
  · refine ⟨?_, ?_, rfl⟩
    · simp [h, not_le.mpr h]
    · intro col hcol
      rw [if_pos h] at hcol
      exact absurd hcol (by simp)
  · refine ⟨?_, ?_, rfl⟩
    · simp [h, not_lt.mp h]
    · intro col hcol
      rw [if_neg h] at hcol
      cases Option.some.inj hcol
      exact ⟨rfl, rfl, (hmk _ _).1, (hmk _ _).2⟩

/-- Witness for C4 at a concrete scene: a triangle in the `z = 0` plane of
shape 0 against the vertex `(0, 0, −1)` of shape 1. -/
theorem C4_vertex_face_filter_witness :
    (∀ p n, (ymath0.make_frame3_fromz p n).pos = p ∧ (ymath0.make_frame3_fromz p n).z = n) ∧
    (((witness_contact ymath0 c4_scene (0, 1) c4_overlap).isSome ↔
        dot (overlap_normal ymath0 c4_scene (0, 1) c4_overlap)
          (ymath0.normalize (overlap_world_vertex c4_scene (0, 1) c4_overlap -
            overlap_tp c4_scene (0, 1) c4_overlap)) ≤ -(1 / 100)) ∧
      (∀ col, witness_contact ymath0 c4_scene (0, 1) c4_overlap = some col →
        col.shapes = (0, 1) ∧ col.depth = c4_overlap.1.dist ∧
        col.frame.pos = overlap_world_vertex c4_scene (0, 1) c4_overlap ∧
        col.frame.z = overlap_normal ymath0 c4_scene (0, 1) c4_overlap) ∧
      compute_collision ymath0 cb0 c4_scene (0, 1) =
        (cb0.overlap_verts c4_scene 0 1 c4_scene.overlap_max_radius).filterMap
          (witness_contact ymath0 c4_scene (0, 1))) :=
  ⟨fun _ _ => ⟨rfl, rfl⟩,
    C4_vertex_face_filter ymath0 cb0 c4_scene (0, 1) c4_overlap (fun _ _ => ⟨rfl, rfl⟩)⟩

/-- C5: for every candidate pair returned by the broad-phase callback, the
pair contributes no contacts and no vertex-overlap invocations when both
bodies have density 0 or either body has no triangle array; otherwise the
vertex-overlap callback is invoked exactly twice, as `(A, B)` then `(B, A)`,
and the pair contributes the contacts of those two invocations (the second
component of `compute_collisions` lists the `overlap_verts` invocations in
order). -/
theorem C5_pair_filter (ym : ymath) (cb : callbacks) (scn : scene)
    (hwf : ∀ j, (scn.shapes.getD j shape0).simulated =
      decide ((scn.shapes.getD j shape0).density > 0))
    (hd : ∀ j, 0 ≤ (scn.shapes.getD j shape0).density) :
    compute_collisions ym cb scn =
      ((cb.overlap_shapes scn).flatMap fun sc =>
        if pair_dropped scn sc then []
        else compute_collision ym cb scn (sc.1, sc.2) ++
          compute_collision ym cb scn (sc.2, sc.1),
       (cb.overlap_shapes scn).flatMap fun sc =>
        if pair_dropped scn sc then [] else [(sc.1, sc.2), (sc.2, sc.1)]) := by
  have key : ∀ j, ((scn.shapes.getD j shape0).simulated = false) ↔
      (scn.shapes.getD j shape0).density = 0 := by
    intro j
    rw [hwf j]
    simp only [decide_eq_false_iff_not, not_lt, gt_iff_lt]
    constructor
    · intro h; linarith [hd j]
    · intro h; linarith
  unfold compute_collisions
  generalize cb.overlap_shapes scn = pairs
  induction pairs with
  | nil => rfl
  | cons sc rest ih =>
    simp only [compute_collisions_pairs, List.flatMap_cons]
    rw [ih]
    by_cases h1 : (scn.shapes.getD sc.1 shape0).simulated = false ∧
        (scn.shapes.getD sc.2 shape0).simulated = false
    · rw [if_pos h1]
      have hc : pair_dropped scn sc := Or.inl ⟨(key _).mp h1.1, (key _).mp h1.2⟩
      simp [hc]
    · rw [if_neg h1]
      by_cases h2 : (scn.shapes.getD sc.1 shape0).triangles = none
      · rw [if_pos h2]
        have hc : pair_dropped scn sc := Or.inr (Or.inl h2)
        simp [hc]
      · rw [if_neg h2]
        by_cases h3 : (scn.shapes.getD sc.2 shape0).triangles = none
        · rw [if_pos h3]
          have hc : pair_dropped scn sc := Or.inr (Or.inr h3)
          simp [hc]
        · rw [if_neg h3]
          have hnc : ¬ pair_dropped scn sc := by
            rintro (⟨e1, e2⟩ | e | e)
            · exact h1 ⟨(key _).mpr e1, (key _).mpr e2⟩
            · exact h2 e
            · exact h3 e
          simp [hnc]

/-- Witness for C5 at a concrete three-body scene: pair `(0, 1)` (one static
body with geometry, one simulated) survives the filters; pair `(1, 2)` is
dropped because body 2 has no triangle array. -/
theorem C5_pair_filter_witness :
    ((∀ j, (c5_scene.shapes.getD j shape0).simulated =
        decide ((c5_scene.shapes.getD j shape0).density > 0)) ∧
      (∀ j, 0 ≤ (c5_scene.shapes.getD j shape0).density)) ∧
    compute_collisions ymath0 c5_cb c5_scene =
      ((c5_cb.overlap_shapes c5_scene).flatMap fun sc =>
        if pair_dropped c5_scene sc then []
        else compute_collision ymath0 c5_cb c5_scene (sc.1, sc.2) ++
          compute_collision ymath0 c5_cb c5_scene (sc.2, sc.1),
       (c5_cb.overlap_shapes c5_scene).flatMap fun sc =>
        if pair_dropped c5_scene sc then [] else [(sc.1, sc.2), (sc.2, sc.1)]) :=
  ⟨⟨by
      intro j
      rcases j with _ | _ | _ | j <;>
        simp [c5_scene, c5_body0, c5_body1, c5_body2, shape0],
    by
      intro j
      rcases j with _ | _ | _ | j <;>
        simp [c5_scene, c5_body0, c5_body1, c5_body2, shape0]⟩,
    C5_pair_filter ymath0 c5_cb c5_scene
      (by
        intro j
        rcases j with _ | _ | _ | j <;>
          simp [c5_scene, c5_body0, c5_body1, c5_body2, shape0])
      (by
        intro j
        rcases j with _ | _ | _ | j <;>
          simp [c5_scene, c5_body0, c5_body1, c5_body2, shape0])⟩

/-- C6: the solver's precomputation stores, for each contact-frame axis `e`,
the scalar `1 / (M_A⁻¹ + M_B⁻¹ + (r_A × e)ᵀ·I_A⁻¹·(r_A × e) +
(r_B × e)ᵀ·I_B⁻¹·(r_B × e))`, with `r_A, r_B` the contact origin minus each
body's cached world centroid, `M⁻¹` the cached inverse masses and `I⁻¹` the
cached world inverse inertias, and zeroes both accumulated impulse vectors
at the same time. -/
theorem C6_effective_mass (bodies : List shape) (col : collision) :
    let A := bodies.getD col.shapes.1 shape0
    let B := bodies.getD col.shapes.2 shape0
    let rA := col.frame.pos - A.centroid_world
    let rB := col.frame.pos - B.centroid_world
    let m : vec3f → ℚ := fun e =>
      1 / (A.mass_inv + B.mass_inv +
        dot (cross rA e) (A.inertia_inv_world.mulVec (cross rA e)) +
        dot (cross rB e) (B.inertia_inv_world.mulVec (cross rB e)))
    (solve_init bodies col).meff_inv = ⟨m col.frame.x, m col.frame.y, m col.frame.z⟩ ∧
    (solve_init bodies col).local_impulse = 0 ∧
    (solve_init bodies col).impulse = 0 :=
  ⟨rfl, rfl, rfl⟩

/-- C7: in `advance_simulation`, gravity `g · dt` is added to a simulated
body's linear velocity by the gravity loop, the drag loop scales linear and
angular velocities by `(1 − lin_drag)` and `(1 − ang_drag)`, and with no
contacts the step's net effect on velocities is drag applied after gravity:
`v ← (1 − lin_drag)·(v + g·dt)` and `ω ← (1 − ang_drag)·ω` (the pose advance
changes no velocity). -/
theorem C7_gravity_then_drag (ym : ymath) (cb : callbacks) (scn : scene) (dt : ℚ) (i : ℕ)
    (hsim : (scn.shapes.getD i shape0).simulated = true)
    (hlen : i < scn.shapes.length)
    (hcb : ∀ s, cb.overlap_shapes s = []) :
    ((scn.shapes.map (apply_gravity scn.gravity dt)).getD i shape0).lin_vel =
      (scn.shapes.getD i shape0).lin_vel + dt • scn.gravity ∧
    ((scn.shapes.map (apply_drag scn.lin_drag scn.ang_drag)).getD i shape0).lin_vel =
      (1 - scn.lin_drag) • (scn.shapes.getD i shape0).lin_vel ∧
    ((scn.shapes.map (apply_drag scn.lin_drag scn.ang_drag)).getD i shape0).ang_vel =
      (1 - scn.ang_drag) • (scn.shapes.getD i shape0).ang_vel ∧
    ((advance_simulation ym cb scn dt).shapes.getD i shape0).lin_vel =
      (1 - scn.lin_drag) • ((scn.shapes.getD i shape0).lin_vel + dt • scn.gravity) ∧
    ((advance_simulation ym cb scn dt).shapes.getD i shape0).ang_vel =
      (1 - scn.ang_drag) • (scn.shapes.getD i shape0).ang_vel := by
  have len1 : i < (scn.shapes.map update_centroids).length := by simpa using hlen
  have len2 : i < ((scn.shapes.map update_centroids).map
      (apply_gravity scn.gravity dt)).length := by simpa using hlen
  have len3 : i < (((scn.shapes.map update_centroids).map
      (apply_gravity scn.gravity dt)).map (apply_drag scn.lin_drag scn.ang_drag)).length := by
    simpa using hlen
  have hsim' : (scn.shapes[i]?.getD shape0).simulated = true := by
    rw [← List.getD_eq_getElem?_getD]; exact hsim
  refine ⟨?_, ?_, ?_, ?_⟩
  · rw [getD_map_lt (apply_gravity scn.gravity dt) scn.shapes i shape0 shape0 hlen]
    simp [apply_gravity, hsim']
  · rw [getD_map_lt (apply_drag scn.lin_drag scn.ang_drag) scn.shapes i shape0 shape0 hlen]
    simp [apply_drag, hsim']
  · rw [getD_map_lt (apply_drag scn.lin_drag scn.ang_drag) scn.shapes i shape0 shape0 hlen]
    simp [apply_drag, hsim']
  · simp only [advance_simulation, compute_collisions, hcb, compute_collisions_pairs,
      solve_constraints_nil]
    rw [getD_map_lt (advance_pose ym dt) _ i shape0 shape0 len3,
      getD_map_lt (apply_drag scn.lin_drag scn.ang_drag) _ i shape0 shape0 len2,
      getD_map_lt (apply_gravity scn.gravity dt) _ i shape0 shape0 len1,
      getD_map_lt update_centroids scn.shapes i shape0 shape0 hlen]
    unfold update_centroids apply_gravity apply_drag advance_pose
    simp [hsim']

/-- Witness for C7 at a one-body free-flight scene. -/
theorem C7_gravity_then_drag_witness :
    ((c7_scene.shapes.getD 0 shape0).simulated = true ∧ 0 < c7_scene.shapes.length ∧
      (∀ s, cb0.overlap_shapes s = [])) ∧
    (((c7_scene.shapes.map (apply_gravity c7_scene.gravity 1)).getD 0 shape0).lin_vel =
        (c7_scene.shapes.getD 0 shape0).lin_vel + (1 : ℚ) • c7_scene.gravity ∧
      ((c7_scene.shapes.map (apply_drag c7_scene.lin_drag c7_scene.ang_drag)).getD 0
          shape0).lin_vel =
        (1 - c7_scene.lin_drag) • (c7_scene.shapes.getD 0 shape0).lin_vel ∧
      ((c7_scene.shapes.map (apply_drag c7_scene.lin_drag c7_scene.ang_drag)).getD 0
          shape0).ang_vel =
        (1 - c7_scene.ang_drag) • (c7_scene.shapes.getD 0 shape0).ang_vel ∧
      ((advance_simulation ymath0 cb0 c7_scene 1).shapes.getD 0 shape0).lin_vel =
        (1 - c7_scene.lin_drag) •
          ((c7_scene.shapes.getD 0 shape0).lin_vel + (1 : ℚ) • c7_scene.gravity) ∧
      ((advance_simulation ymath0 cb0 c7_scene 1).shapes.getD 0 shape0).ang_vel =
        (1 - c7_scene.ang_drag) • (c7_scene.shapes.getD 0 shape0).ang_vel) :=
  ⟨⟨rfl, by simp [c7_scene], fun _ => rfl⟩,
    C7_gravity_then_drag ymath0 cb0 c7_scene 1 0 rfl (by simp [c7_scene]) (fun _ => rfl)⟩

/-- C8: in the pose advance, when `|ang_vel| · dt` is exactly zero the
rotation part of the frame is left unchanged and only the translation is
advanced (the centroid moves by `lin_vel · dt`); when it is nonzero the
rotation is premultiplied by the axis-angle rotation matrix. -/
theorem C8_rotation_skip (ym : ymath) (dt : ℚ) (shp : shape)
    (hsim : shp.simulated = true) :
    (ym.length shp.ang_vel * dt = 0 →
      rot (advance_pose ym dt shp).frame = rot shp.frame ∧
      (advance_pose ym dt shp).frame.pos =
        ((rot shp.frame).mulVec shp.centroid_local + shp.frame.pos + dt • shp.lin_vel) -
          (rot shp.frame).mulVec shp.centroid_local) ∧
    (ym.length shp.ang_vel * dt ≠ 0 →
      rot (advance_pose ym dt shp).frame =
        (ym.rotation_mat3 (ym.normalize shp.ang_vel) (ym.length shp.ang_vel * dt)).mul
          (rot shp.frame)) := by
  unfold advance_pose
  simp only [hsim]
  constructor
  · intro h
    simp [h, rot, frame_of]
  · intro h
    simp [h, rot, frame_of]

/-- Witness for C8 at a body with zero angular velocity (both branches of
the theorem are available; the zero-angle branch applies). -/
theorem C8_rotation_skip_witness :
    c8_shape.simulated = true ∧
    ((ymath0.length c8_shape.ang_vel * 1 = 0 →
        rot (advance_pose ymath0 1 c8_shape).frame = rot c8_shape.frame ∧
        (advance_pose ymath0 1 c8_shape).frame.pos =
          ((rot c8_shape.frame).mulVec c8_shape.centroid_local + c8_shape.frame.pos +
              (1 : ℚ) • c8_shape.lin_vel) -
            (rot c8_shape.frame).mulVec c8_shape.centroid_local) ∧
      (ymath0.length c8_shape.ang_vel * 1 ≠ 0 →
        rot (advance_pose ymath0 1 c8_shape).frame =
          (ymath0.rotation_mat3 (ymath0.normalize c8_shape.ang_vel)
              (ymath0.length c8_shape.ang_vel * 1)).mul (rot c8_shape.frame))) :=
  ⟨rfl, C8_rotation_skip ymath0 1 c8_shape rfl⟩

/-- Splitting a fold over a pair accumulator into two folds. -/
theorem foldl_prod_add {α β γ : Type} [Add β] [Add γ] (f : α → β) (g : α → γ)
    (l : List α) (b : β) (c : γ) :
    l.foldl (fun acc t => (acc.1 + f t, acc.2 + g t)) (b, c) =
      (l.foldl (fun acc t => acc + f t) b, l.foldl (fun acc t => acc + g t) c) := by
  induction l generalizing b c with
  | nil => rfl
  | cons t ts ih => simpa using ih (b + f t) (c + g t)

/-- An accumulation fold equals the initial value plus the sum of the mapped
list, for any associative addition with right identity. -/
theorem foldl_add_sum {α β : Type} [Add β] [Zero β]
    (hassoc : ∀ a b c : β, a + b + c = a + (b + c)) (hzero : ∀ a : β, a + 0 = a)
    (f : α → β) (l : List α) (init : β) :
    l.foldl (fun acc t => acc + f t) init = init + (l.map f).sum := by
  induction l generalizing init with
  | nil => simpa using (hzero init).symm
  | cons t ts ih =>
    simp only [List.foldl_cons, List.map_cons, List.sum_cons]
    rw [ih (init + f t), hassoc]

/-- Vector addition is associative. -/
theorem vec3f_add_assoc (a b c : vec3f) : a + b + c = a + (b + c) := by
  simp only [vec3f_add_def, vec3f.mk.injEq]
  refine ⟨?_, ?_, ?_⟩ <;> ring

/-- Zero is a right identity for vector addition. -/
theorem vec3f_add_zero (a : vec3f) : a + 0 = a := by
  cases a
  simp [vec3f_add_def, vec3f_zero_def]

/-- Zero is a left identity for vector addition. -/
theorem vec3f_zero_add (a : vec3f) : 0 + a = a := by
  cases a
  simp [vec3f_add_def, vec3f_zero_def]

/-- Matrix addition is associative. -/
theorem mat3f_add_assoc (a b c : mat3f) : a + b + c = a + (b + c) := by
  simp only [mat3f_add_def, mat3f.mk.injEq]
  refine ⟨?_, ?_, ?_⟩ <;> rw [vec3f_add_assoc]

/-- Zero is a right identity for matrix addition. -/
theorem mat3f_add_zero (a : mat3f) : a + 0 = a := by
  cases a
  simp only [mat3f_add_def, mat3f_zero_def, mat3f.mk.injEq]
  refine ⟨?_, ?_, ?_⟩ <;> rw [vec3f_add_zero]

/-- Zero is a left identity for matrix addition. -/
theorem mat3f_zero_add (a : mat3f) : 0 + a = a := by
  cases a
  simp only [mat3f_add_def, mat3f_zero_def, mat3f.mk.injEq]
  refine ⟨?_, ?_, ?_⟩ <;> rw [vec3f_zero_add]

/-- The general tetrahedron signed volume is the determinant of the edge
matrix over six. -/
theorem det3_tetra (a b c d : vec3f) :
    det3 (b - a) (c - a) (d - a) / 6 = tetrahedron_volume a b c d := by
  simp only [tetrahedron_volume, det3, dot, cross, vec3f_sub_def]
  ring

/-- An apex-at-origin tetrahedron has signed volume `det(a, b, c)/6`. -/
theorem tetra_vol_det (a b c : vec3f) : tetrahedron_volume 0 a b c = det3 a b c / 6 := by
  simp only [tetrahedron_volume, det3, dot, cross, vec3f_sub_def, vec3f_zero_def]
  ring

/-- The source's expanded diagonal accumulation equals the spec's indexed
sums `Σᵢ rᵢⱼ² + Σᵢ<ₖ rᵢⱼ·rₖⱼ` (scaled by `6v/60`). -/
theorem tonon_diag_eq (r0 r1 r2 r3 : vec3f) (V : ℚ) (j : Fin 3) :
    (r0.comp j * r0.comp j + r1.comp j * r1.comp j + r2.comp j * r2.comp j +
      r3.comp j * r3.comp j + r0.comp j * r1.comp j + r0.comp j * r2.comp j +
      r0.comp j * r3.comp j + r1.comp j * r2.comp j + r1.comp j * r3.comp j +
      r2.comp j * r3.comp j) * 6 * V / 60 =
    ((Finset.univ.sum fun i : Fin 4 =>
        (![r0, r1, r2, r3] i).comp j * (![r0, r1, r2, r3] i).comp j) +
      Finset.univ.sum fun i : Fin 4 =>
        Finset.univ.sum fun k : Fin 4 =>
          if i < k then (![r0, r1, r2, r3] i).comp j * (![r0, r1, r2, r3] k).comp j else 0) *
      (6 * V) / 60 := by
  simp +decide only [Fin.sum_univ_four, Fin.isValue, Matrix.cons_val_zero,
    Matrix.cons_val_one, Matrix.head_cons, Matrix.cons_val_two, Matrix.tail_cons,
    Matrix.cons_val_three, if_true, if_false]
  ring

/-- The source's expanded off-diagonal accumulation equals the spec's indexed
sums `2·Σᵢ rᵢⱼ₁·rᵢⱼ₂ + Σᵢ≠ₖ rᵢⱼ₁·rₖⱼ₂` (scaled by `6v/120`). -/
theorem tonon_offd_eq (r0 r1 r2 r3 : vec3f) (V : ℚ) (j : Fin 3) :
    (2 * r0.comp (j + 1) * r0.comp (j + 2) + 2 * r1.comp (j + 1) * r1.comp (j + 2) +
      2 * r2.comp (j + 1) * r2.comp (j + 2) + 2 * r3.comp (j + 1) * r3.comp (j + 2) +
      r1.comp (j + 1) * r0.comp (j + 2) + r2.comp (j + 1) * r0.comp (j + 2) +
      r3.comp (j + 1) * r0.comp (j + 2) + r0.comp (j + 1) * r1.comp (j + 2) +
      r2.comp (j + 1) * r1.comp (j + 2) + r3.comp (j + 1) * r1.comp (j + 2) +
      r0.comp (j + 1) * r2.comp (j + 2) + r1.comp (j + 1) * r2.comp (j + 2) +
      r3.comp (j + 1) * r2.comp (j + 2) + r0.comp (j + 1) * r3.comp (j + 2) +
      r1.comp (j + 1) * r3.comp (j + 2) + r2.comp (j + 1) * r3.comp (j + 2)) *
      6 * V / 120 =
    (2 * Finset.univ.sum (fun i : Fin 4 =>
        (![r0, r1, r2, r3] i).comp (j + 1) * (![r0, r1, r2, r3] i).comp (j + 2)) +
      Finset.univ.sum fun i : Fin 4 =>
        Finset.univ.sum fun k : Fin 4 =>
          if i ≠ k then (![r0, r1, r2, r3] i).comp (j + 1) * (![r0, r1, r2, r3] k).comp (j + 2)
          else 0) * (6 * V) / 120 := by
  simp +decide only [Fin.sum_univ_four, Fin.isValue, Matrix.cons_val_zero,
    Matrix.cons_val_one, Matrix.head_cons, Matrix.cons_val_two, Matrix.tail_cons,
    Matrix.cons_val_three, if_true, if_false]
  ring

/-- The source's `_compute_tetra_inertia` agrees with the spec's Tonon
closed-form tensor. -/
theorem tetra_inertia_spec (a b c d center : vec3f) :
    compute_tetra_inertia a b c d center = tonon_spec a b c d center := by
  simp only [compute_tetra_inertia, tonon_spec]
  rw [det3_tetra]
  rw [tonon_diag_eq, tonon_diag_eq, tonon_diag_eq, tonon_offd_eq, tonon_offd_eq,
    tonon_offd_eq]

/-- C9: `compute_moments` on a triangle mesh returns exactly the spec's
quantities: `V = Σ det(v₀, v₁, v₂)/6` over the triangles (apex at the
origin), `C = Σ (v · (0 + v₀ + v₁ + v₂)/4) / V`, and the inertia tensor is
the sum of the per-tetrahedron Tonon closed-form tensors about `C`, divided
by `V`. -/
theorem C9_compute_moments (triangles : List (ℕ × ℕ × ℕ)) (pos : List vec3f) :
    compute_moments triangles pos = moments_spec triangles pos := by
  simp only [compute_moments, moments_spec]
  rw [foldl_prod_add]
  rw [foldl_add_sum (fun a b c => add_assoc a b c) (fun a => add_zero a),
    foldl_add_sum vec3f_add_assoc vec3f_add_zero,
    foldl_add_sum mat3f_add_assoc mat3f_add_zero]
  rw [zero_add, vec3f_zero_add, mat3f_zero_add]
  simp only [tetra_vol_det, tetra_inertia_spec]

/-- The identity matrix is a left identity for the matrix-vector product. -/
theorem identity_mulVec (v : vec3f) : identity_mat3f.mulVec v = v := by
  cases v
  simp only [identity_mat3f, mat3f.mulVec, vec3f_smul_def, vec3f_add_def, vec3f.mk.injEq]
  refine ⟨?_, ?_, ?_⟩ <;> ring

/-- C10: a non-simulated body's cached world inverse inertia is written
neither by `init_simulation` nor by `advance_simulation`, so it keeps its
default value, the identity matrix; consequently, in the solver
precomputation a contact whose second body is static (zero inverse mass,
identity world inverse inertia) contributes `(r_B × e)ᵀ·(r_B × e)` rather
than 0 to each effective inverse-mass denominator. -/
theorem C10_static_inertia (ym : ymath) (cb : callbacks) (scn : scene) (dt : ℚ) (i : ℕ)
    (bodies : List shape) (col : collision)
    (hsim : (scn.shapes.getD i shape0).simulated = false)
    (hm2 : (bodies.getD col.shapes.2 shape0).mass_inv = 0)
    (hi2 : (bodies.getD col.shapes.2 shape0).inertia_inv_world = identity_mat3f) :
    ((init_simulation scn).shapes.getD i shape0).inertia_inv_world =
      (scn.shapes.getD i shape0).inertia_inv_world ∧
    ((advance_simulation ym cb scn dt).shapes.getD i shape0).inertia_inv_world =
      (scn.shapes.getD i shape0).inertia_inv_world ∧
    shape0.inertia_inv_world = identity_mat3f ∧
    (let A := bodies.getD col.shapes.1 shape0
     let rA := col.frame.pos - A.centroid_world
     let rB := col.frame.pos - (bodies.getD col.shapes.2 shape0).centroid_world
     let m : vec3f → ℚ := fun e =>
       1 / (A.mass_inv + dot (cross rA e) (A.inertia_inv_world.mulVec (cross rA e)) +
         dot (cross rB e) (cross rB e))
     (solve_init bodies col).meff_inv = ⟨m col.frame.x, m col.frame.y, m col.frame.z⟩) := by
  refine ⟨?_, ?_, rfl, ?_⟩
  · exact map_proj shape.inertia_inv_world _
      (fun s => by by_cases h : s.simulated <;> simp [h]) scn.shapes i
  · exact congrArg shape.inertia_inv_world (advance_simulation_static ym cb scn dt i hsim)
  · simp only [solve_init, muldot, hm2, hi2, identity_mulVec, add_zero]

/-- Witness for C10 at concrete fixtures: the static body of `c5_scene` for
the cache clauses, and a contact against the post-init static body
`c10_static` for the solver clause. -/
theorem C10_static_inertia_witness :
    ((c5_scene.shapes.getD 0 shape0).simulated = false ∧
      (c10_bodies.getD c10_col.shapes.2 shape0).mass_inv = 0 ∧
      (c10_bodies.getD c10_col.shapes.2 shape0).inertia_inv_world = identity_mat3f) ∧
    (((init_simulation c5_scene).shapes.getD 0 shape0).inertia_inv_world =
        (c5_scene.shapes.getD 0 shape0).inertia_inv_world ∧
      ((advance_simulation ymath0 cb0 c5_scene 1).shapes.getD 0 shape0).inertia_inv_world =
        (c5_scene.shapes.getD 0 shape0).inertia_inv_world ∧
      shape0.inertia_inv_world = identity_mat3f ∧
      (let A := c10_bodies.getD c10_col.shapes.1 shape0
       let rA := c10_col.frame.pos - A.centroid_world
       let rB := c10_col.frame.pos - (c10_bodies.getD c10_col.shapes.2 shape0).centroid_world
       let m : vec3f → ℚ := fun e =>
         1 / (A.mass_inv + dot (cross rA e) (A.inertia_inv_world.mulVec (cross rA e)) +
           dot (cross rB e) (cross rB e))
       (solve_init c10_bodies c10_col).meff_inv =
         ⟨m c10_col.frame.x, m c10_col.frame.y, m c10_col.frame.z⟩)) :=
  ⟨⟨rfl, rfl, rfl⟩,
    C10_static_inertia ymath0 cb0 c5_scene 1 0 c10_bodies c10_col rfl rfl rfl⟩

/-- Bounds guaranteed by the inner-loop clamp sequence with zero bias: the
normal component is non-negative, the first tangential component lies in
`[-0.6·λ_z, 0.6·λ_z]`, and the second in `[-0.6·λ_z, λ_z]`. -/
theorem clamp_accum_bounds (li : vec3f) :
    0 ≤ (clamp_accum 0 li).z ∧
    -((3 : ℚ) / 5) * (clamp_accum 0 li).z ≤ (clamp_accum 0 li).y ∧
    (clamp_accum 0 li).y ≤ (clamp_accum 0 li).z ∧
    -((3 : ℚ) / 5) * (clamp_accum 0 li).z ≤ (clamp_accum 0 li).x ∧
    (clamp_accum 0 li).x ≤ ((3 : ℚ) / 5) * (clamp_accum 0 li).z := by
  have hz : (0 : ℚ) ≤ max li.z 0 := le_max_right _ _
  simp only [clamp_accum, clamp]
  refine ⟨hz, ?_, ?_, ?_, ?_⟩
  · refine le_min (le_trans (le_of_eq (by ring)) (le_max_right _ _)) (by nlinarith)
  · exact le_trans (min_le_right _ _) (by nlinarith)
  · refine le_min (le_trans (le_of_eq (by ring)) (le_max_right _ _)) (by nlinarith)
  · exact le_trans (min_le_right _ _) (le_of_eq (by ring))

/-- C1 (counterexample): one PGS inner-loop update on a concrete contact
leaves the stored accumulated impulse with `λ_y = 0.9 > 0.6 = 0.6·λ_z`, so
the claimed upper bound `λ_y ≤ 0.6·λ_z` is false: the source clamps `λ_y` to
`λ_z − bias·0.6`, not to `0.6·λ_z − bias·0.6`. -/
theorem C1_friction_clamp_counterexample :
    ¬ ((solve_col c1_bodies c1_col).2.local_impulse.y ≤
        (3 / 5) * (solve_col c1_bodies c1_col).2.local_impulse.z) := by
  norm_num [solve_col, c1_bodies, c1_col, clamp_accum, clamp, apply_rel_impulse, shape0,
    identity_frame3f, dot, cross, mat3f.mulVec, identity_mat3f, max_def, min_def]

/-- C1 (amended): in every PGS inner-loop update, after the normal component
`λ_z` is clamped non-negative, `λ_y` is clamped to the interval
`[−0.6·λ_z, λ_z − bias·0.6]` with `bias = 0`; hence after every update
`−0.6·λ_z ≤ λ_y ≤ λ_z` (and `−0.6·λ_z ≤ λ_x ≤ 0.6·λ_z`) holds for the stored
accumulated impulse. -/
theorem C1_friction_clamp (bodies : List shape) (col : collision) :
    0 ≤ (solve_col bodies col).2.local_impulse.z ∧
    -((3 : ℚ) / 5) * (solve_col bodies col).2.local_impulse.z ≤
      (solve_col bodies col).2.local_impulse.y ∧
    (solve_col bodies col).2.local_impulse.y ≤ (solve_col bodies col).2.local_impulse.z ∧
    -((3 : ℚ) / 5) * (solve_col bodies col).2.local_impulse.z ≤
      (solve_col bodies col).2.local_impulse.x ∧
    (solve_col bodies col).2.local_impulse.x ≤
      ((3 : ℚ) / 5) * (solve_col bodies col).2.local_impulse.z :=
  clamp_accum_bounds _

end ysym
